import Mathlib

/-!
Formal model of the Intel VMX instruction wrappers in
`src/instructions/vmx.rs` of the `x86_64` crate.

Each wrapper issues exactly one hardware instruction and converts the
CPU flag outcome (RFLAGS.CF / RFLAGS.ZF) into an `Option` result.  The
hardware flag outcome is an input of the model; the hardware
instruction issued during a call (with the operands the wrapper passes
to it) is recorded, so that descriptor construction and propagation
are observable.  `PhysAddr` and `VirtAddr` are opaque 64-bit values
supplied by the rest of the crate and are modelled as `Nat`.
-/

namespace VMX

/-- CPU flag outcome of one VMX instruction execution: RFLAGS.CF and RFLAGS.ZF. -/
structure RFlags where
  cf : Bool
  zf : Bool
  deriving DecidableEq

/-- Meaning of the `setna` instruction used by the inline backend (for
example `"vmxon $1; setna $0"`): the output byte is set iff CF = 1 or
ZF = 1 (condition "not above" = CF ∨ ZF). -/
def setna (f : RFlags) : Bool := f.cf || f.zf

/-- Modelled from the spec: the bodies of the linked assembly routines
`crate::asm::x86_64_asm_vmxon` … `crate::asm::x86_64_asm_invvpid` are
not under `src/` (only their call sites are).  Per spec section 4.3
both backends "must produce byte-identical flag interpretation", so
each routine returns `true` exactly when the instruction left CF or ZF
set, the same interpretation as `setna`. -/
def linkedAsmErr (f : RFlags) : Bool := f.cf || f.zf

/-- Build-time execution backend: the crate feature `inline_asm`
enabled (inline machine-code emission) or disabled (call to the
linked assembly routine). -/
inductive Backend
  | inlineAsm
  | linkedAsm
  deriving DecidableEq

/-- The `err` boolean a backend reports for a given flag outcome. -/
def Backend.err : Backend → RFlags → Bool
  | Backend.inlineAsm, f => setna f
  | Backend.linkedAsm, f => linkedAsmErr f

/-- Little-endian serialization of the low `n` bytes of `x`. -/
def toLEBytes : Nat → Nat → List Nat
  | 0, _ => []
  | n + 1, x => x % 256 :: toLEBytes n (x / 256)

/-- Reads a little-endian byte list back as a natural number. -/
def fromLEBytes : List Nat → Nat
  | [] => 0
  | b :: l => b + 256 * fromLEBytes l

/-- The INVEPT descriptor (`repr(C, packed)`): a 64-bit EPT pointer
`eptp` followed by a 64-bit `reserved` field. -/
structure InvEptDescriptor where
  eptp : Nat
  reserved : Nat
  deriving DecidableEq

/-- Byte image of `InvEptDescriptor`: `repr(C, packed)` lays the fields
out in declaration order with no padding, and x86-64 is little-endian. -/
def InvEptDescriptor.bytes (d : InvEptDescriptor) : List Nat :=
  toLEBytes 8 d.eptp ++ toLEBytes 8 d.reserved

/-- The INVVPID descriptor (`repr(C, packed)`): a 16-bit `vpid`, a
16-bit `reserved_0`, a 32-bit `reserved_1`, then the 64-bit guest
linear address `addr`. -/
structure InvVpidDescriptor where
  vpid : Nat
  reserved_0 : Nat
  reserved_1 : Nat
  addr : Nat
  deriving DecidableEq

/-- Byte image of `InvVpidDescriptor`: `repr(C, packed)` lays the
fields out in declaration order with no padding, little-endian. -/
def InvVpidDescriptor.bytes (d : InvVpidDescriptor) : List Nat :=
  toLEBytes 2 d.vpid ++ toLEBytes 2 d.reserved_0 ++
    toLEBytes 4 d.reserved_1 ++ toLEBytes 8 d.addr

/-- The INVEPT type (`repr(u64)` enumeration). -/
inductive InvEptType
  | SingleContext
  | Global
  deriving DecidableEq

/-- Discriminant of `InvEptType` (`invalidation as u64` with the
`repr(u64)` values `SingleContext = 1`, `Global = 2`). -/
def InvEptType.toU64 : InvEptType → Nat
  | InvEptType.SingleContext => 1
  | InvEptType.Global => 2

/-- The INVVPID type (`repr(u64)` enumeration). -/
inductive InvVpidType
  | IndividualAddress
  | SingleContext
  | AllContext
  | SingleContextNonGlobal
  deriving DecidableEq

/-- Discriminant of `InvVpidType` (`invalidation as u64` with the
`repr(u64)` values `IndividualAddress = 0`, `SingleContext = 1`,
`AllContext = 2`, `SingleContextNonGlobal = 3`). -/
def InvVpidType.toU64 : InvVpidType → Nat
  | InvVpidType.IndividualAddress => 0
  | InvVpidType.SingleContext => 1
  | InvVpidType.AllContext => 2
  | InvVpidType.SingleContextNonGlobal => 3

/-- One issued hardware instruction, with the operands the wrapper
passes to it. -/
inductive Instr
  | vmxon (addr : Nat)
  | vmxoff
  | vmread (field : Nat)
  | vmwrite (field : Nat) (value : Nat)
  | vmptrld (addr : Nat)
  | vmclear (addr : Nat)
  | invept (invalidation : Nat) (descriptor : InvEptDescriptor)
  | invvpid (invalidation : Nat) (descriptor : InvVpidDescriptor)
  deriving DecidableEq

/-- `vmxon`: issues VMXON on the given VMXON-region physical address,
then returns `none` iff the backend reported CF/ZF set.  The first
component lists the hardware instructions issued during the call. -/
def vmxonRun (b : Backend) (addr : Nat) (flags : RFlags) :
    List Instr × Option Unit :=
  let err : Bool := b.err flags
  ([Instr.vmxon addr], if err then none else some ())

/-- `vmxoff`: issues VMXOFF, then returns `none` iff the backend
reported CF/ZF set. -/
def vmxoffRun (b : Backend) (flags : RFlags) :
    List Instr × Option Unit :=
  let err : Bool := b.err flags
  ([Instr.vmxoff], if err then none else some ())

/-- `vmread`: issues VMREAD on the given VMCS field; `value` is the
64-bit value the instruction wrote to its output operand.  Returns
`none` iff the backend reported CF/ZF set, otherwise `some value`. -/
def vmreadRun (b : Backend) (field : Nat) (flags : RFlags) (value : Nat) :
    List Instr × Option Nat :=
  let err : Bool := b.err flags
  ([Instr.vmread field], if err then none else some value)

/-- `vmwrite`: issues VMWRITE of `value` to the given VMCS field, then
returns `none` iff the backend reported CF/ZF set. -/
def vmwriteRun (b : Backend) (field : Nat) (value : Nat) (flags : RFlags) :
    List Instr × Option Unit :=
  let err : Bool := b.err flags
  ([Instr.vmwrite field value], if err then none else some ())

/-- `vmptrld`: issues VMPTRLD on the given VMCS-region physical
address, then returns `none` iff the backend reported CF/ZF set. -/
def vmptrldRun (b : Backend) (addr : Nat) (flags : RFlags) :
    List Instr × Option Unit :=
  let err : Bool := b.err flags
  ([Instr.vmptrld addr], if err then none else some ())

/-- `vmclear`: issues VMCLEAR on the given VMCS-region physical
address, then returns `none` iff the backend reported CF/ZF set. -/
def vmclearRun (b : Backend) (addr : Nat) (flags : RFlags) :
    List Instr × Option Unit :=
  let err : Bool := b.err flags
  ([Instr.vmclear addr], if err then none else some ())

/-- `invept`: constructs `InvEptDescriptor { eptp, reserved: 0 }`,
issues INVEPT with the descriptor's address and `invalidation as u64`,
then returns `none` iff the backend reported CF/ZF set. -/
def inveptRun (b : Backend) (invalidation : InvEptType) (eptp : Nat)
    (flags : RFlags) : List Instr × Option Unit :=
  let descriptor : InvEptDescriptor := { eptp := eptp, reserved := 0 }
  let err : Bool := b.err flags
  ([Instr.invept invalidation.toU64 descriptor], if err then none else some ())

/-- `invvpid`: constructs
`InvVpidDescriptor { vpid, addr, reserved_0: 0, reserved_1: 0 }`,
issues INVVPID with the descriptor's address and `invalidation as u64`,
then returns `none` iff the backend reported CF/ZF set. -/
def invvpidRun (b : Backend) (invalidation : InvVpidType) (vpid : Nat)
    (addr : Nat) (flags : RFlags) : List Instr × Option Unit :=
  let descriptor : InvVpidDescriptor :=
    { vpid := vpid, reserved_0 := 0, reserved_1 := 0, addr := addr }
  let err : Bool := b.err flags
  ([Instr.invvpid invalidation.toU64 descriptor], if err then none else some ())

/-- Caller-visible result of `vmxon`. -/
def vmxon (b : Backend) (addr : Nat) (flags : RFlags) : Option Unit :=
  (vmxonRun b addr flags).2

/-- Caller-visible result of `vmxoff`. -/
def vmxoff (b : Backend) (flags : RFlags) : Option Unit :=
  (vmxoffRun b flags).2

/-- Caller-visible result of `vmread`. -/
def vmread (b : Backend) (field : Nat) (flags : RFlags) (value : Nat) :
    Option Nat :=
  (vmreadRun b field flags value).2

/-- Caller-visible result of `vmwrite`. -/
def vmwrite (b : Backend) (field : Nat) (value : Nat) (flags : RFlags) :
    Option Unit :=
  (vmwriteRun b field value flags).2

/-- Caller-visible result of `vmptrld`. -/
def vmptrld (b : Backend) (addr : Nat) (flags : RFlags) : Option Unit :=
  (vmptrldRun b addr flags).2

/-- Caller-visible result of `vmclear`. -/
def vmclear (b : Backend) (addr : Nat) (flags : RFlags) : Option Unit :=
  (vmclearRun b addr flags).2

/-- Caller-visible result of `invept`. -/
def invept (b : Backend) (invalidation : InvEptType) (eptp : Nat)
    (flags : RFlags) : Option Unit :=
  (inveptRun b invalidation eptp flags).2

/-- Caller-visible result of `invvpid`. -/
def invvpid (b : Backend) (invalidation : InvVpidType) (vpid : Nat)
    (addr : Nat) (flags : RFlags) : Option Unit :=
  (invvpidRun b invalidation vpid addr flags).2

theorem toLEBytes_length (n x : Nat) : (toLEBytes n x).length = n := by
  induction n generalizing x with
  | zero => rfl
  | succ n ih => simp [toLEBytes, ih]

theorem fromLEBytes_toLEBytes (n x : Nat) :
    fromLEBytes (toLEBytes n x) = x % 256 ^ n := by
  induction n generalizing x with
  | zero => simp [toLEBytes, fromLEBytes, Nat.mod_one]
  | succ n ih =>
    have h : (256 : Nat) ^ (n + 1) = 256 * 256 ^ n := by ring
    simp [toLEBytes, fromLEBytes, ih, h, Nat.mod_mul]

theorem bytes_take (l1 l2 : List Nat) (n : Nat) (h : l1.length = n) :
    (l1 ++ l2).take n = l1 := by
  subst h
  exact List.take_left l1 l2

theorem bytes_drop (l1 l2 : List Nat) (n : Nat) (h : l1.length = n) :
    (l1 ++ l2).drop n = l2 := by
  subst h
  exact List.drop_left l1 l2

/-- C1: for each of the eight primitives and every flag outcome of the
underlying instruction, the result is `none` exactly when CF or ZF is
set, and success otherwise; `vmread` succeeds with exactly the value
the instruction read. -/
theorem primitives_fail_iff_cf_or_zf
    (b : Backend) (flags : RFlags)
    (addr field value eptp vpid la : Nat)
    (it : InvEptType) (vt : InvVpidType) :
    (vmxon b addr flags = none ↔ (flags.cf = true ∨ flags.zf = true)) ∧
    (vmxoff b flags = none ↔ (flags.cf = true ∨ flags.zf = true)) ∧
    (vmread b field flags value = none ↔ (flags.cf = true ∨ flags.zf = true)) ∧
    (vmwrite b field value flags = none ↔ (flags.cf = true ∨ flags.zf = true)) ∧
    (vmptrld b addr flags = none ↔ (flags.cf = true ∨ flags.zf = true)) ∧
    (vmclear b addr flags = none ↔ (flags.cf = true ∨ flags.zf = true)) ∧
    (invept b it eptp flags = none ↔ (flags.cf = true ∨ flags.zf = true)) ∧
    (invvpid b vt vpid la flags = none ↔ (flags.cf = true ∨ flags.zf = true)) ∧
    (vmread b field flags value = some value ↔
      (flags.cf = false ∧ flags.zf = false)) := by
  rcases flags with ⟨cf, zf⟩
  cases b <;> cases cf <;> cases zf <;>
    simp [vmxon, vmxoff, vmread, vmwrite, vmptrld, vmclear, invept, invvpid,
      vmxonRun, vmxoffRun, vmreadRun, vmwriteRun, vmptrldRun, vmclearRun,
      inveptRun, invvpidRun, Backend.err, setna, linkedAsmErr]

/-- C2: both descriptor types serialize to exactly 16 bytes with no
padding, with `InvEptDescriptor.eptp` at bytes 0–7 and `reserved` at
bytes 8–15, and `InvVpidDescriptor.vpid` at bytes 0–1, `reserved_0` at
bytes 2–3, `reserved_1` at bytes 4–7 and `addr` at bytes 8–15, for
every valid (in-range) input. -/
theorem descriptors_16_bytes_exact_offsets
    (d : InvEptDescriptor) (v : InvVpidDescriptor)
    (hd1 : d.eptp < 2 ^ 64) (hd2 : d.reserved < 2 ^ 64)
    (hv1 : v.vpid < 2 ^ 16) (hv2 : v.reserved_0 < 2 ^ 16)
    (hv3 : v.reserved_1 < 2 ^ 32) (hv4 : v.addr < 2 ^ 64) :
    d.bytes.length = 16 ∧
    fromLEBytes (d.bytes.take 8) = d.eptp ∧
    fromLEBytes (d.bytes.drop 8) = d.reserved ∧
    v.bytes.length = 16 ∧
    fromLEBytes (v.bytes.take 2) = v.vpid ∧
    fromLEBytes ((v.bytes.drop 2).take 2) = v.reserved_0 ∧
    fromLEBytes ((v.bytes.drop 4).take 4) = v.reserved_1 ∧
    fromLEBytes (v.bytes.drop 8) = v.addr := by
  have h64 : (256 : Nat) ^ 8 = 2 ^ 64 := by norm_num
  have h16 : (256 : Nat) ^ 2 = 2 ^ 16 := by norm_num
  have h32 : (256 : Nat) ^ 4 = 2 ^ 32 := by norm_num
  refine ⟨?_, ?_, ?_, ?_, ?_, ?_, ?_, ?_⟩
  · simp [InvEptDescriptor.bytes, toLEBytes_length]
  · rw [InvEptDescriptor.bytes, bytes_take _ _ 8 (toLEBytes_length 8 _),
      fromLEBytes_toLEBytes, h64]
    exact Nat.mod_eq_of_lt hd1
  · rw [InvEptDescriptor.bytes, bytes_drop _ _ 8 (toLEBytes_length 8 _),
      fromLEBytes_toLEBytes, h64]
    exact Nat.mod_eq_of_lt hd2
  · simp [InvVpidDescriptor.bytes, toLEBytes_length]
  · rw [InvVpidDescriptor.bytes, List.append_assoc, List.append_assoc,
      bytes_take _ _ 2 (toLEBytes_length 2 _), fromLEBytes_toLEBytes, h16]
    exact Nat.mod_eq_of_lt hv1
  · rw [InvVpidDescriptor.bytes, List.append_assoc, List.append_assoc,
      bytes_drop _ _ 2 (toLEBytes_length 2 _),
      bytes_take _ _ 2 (toLEBytes_length 2 _), fromLEBytes_toLEBytes, h16]
    exact Nat.mod_eq_of_lt hv2
  · rw [InvVpidDescriptor.bytes, List.append_assoc,
      bytes_drop _ _ 4 (by simp [toLEBytes_length]),
      bytes_take _ _ 4 (toLEBytes_length 4 _), fromLEBytes_toLEBytes, h32]
    exact Nat.mod_eq_of_lt hv3
  · rw [InvVpidDescriptor.bytes,
      bytes_drop _ _ 8 (by simp [toLEBytes_length]),
      fromLEBytes_toLEBytes, h64]
    exact Nat.mod_eq_of_lt hv4

/-- Witness for C2 at the concrete descriptors
`InvEptDescriptor.mk 0x1234 0` and `InvVpidDescriptor.mk 7 0 0 0x2000`. -/
theorem descriptors_16_bytes_exact_offsets_witness :
    (InvEptDescriptor.mk 0x1234 0).bytes.length = 16 ∧
    fromLEBytes ((InvEptDescriptor.mk 0x1234 0).bytes.take 8) = 0x1234 ∧
    fromLEBytes ((InvEptDescriptor.mk 0x1234 0).bytes.drop 8) = 0 ∧
    (InvVpidDescriptor.mk 7 0 0 0x2000).bytes.length = 16 ∧
    fromLEBytes ((InvVpidDescriptor.mk 7 0 0 0x2000).bytes.take 2) = 7 ∧
    fromLEBytes (((InvVpidDescriptor.mk 7 0 0 0x2000).bytes.drop 2).take 2) = 0 ∧
    fromLEBytes (((InvVpidDescriptor.mk 7 0 0 0x2000).bytes.drop 4).take 4) = 0 ∧
    fromLEBytes ((InvVpidDescriptor.mk 7 0 0 0x2000).bytes.drop 8) = 0x2000 :=
  descriptors_16_bytes_exact_offsets
    (InvEptDescriptor.mk 0x1234 0) (InvVpidDescriptor.mk 7 0 0 0x2000)
    (by norm_num) (by norm_num) (by norm_num) (by norm_num)
    (by norm_num) (by norm_num)

/-- C3: the transmitted numeric code of each enumeration variant equals
the hardware-mandated value, and both enumerations are closed. -/
theorem enum_codes_mandated :
    InvEptType.SingleContext.toU64 = 1 ∧
    InvEptType.Global.toU64 = 2 ∧
    InvVpidType.IndividualAddress.toU64 = 0 ∧
    InvVpidType.SingleContext.toU64 = 1 ∧
    InvVpidType.AllContext.toU64 = 2 ∧
    InvVpidType.SingleContextNonGlobal.toU64 = 3 ∧
    (∀ t : InvEptType,
      t = InvEptType.SingleContext ∨ t = InvEptType.Global) ∧
    (∀ t : InvVpidType,
      t = InvVpidType.IndividualAddress ∨ t = InvVpidType.SingleContext ∨
      t = InvVpidType.AllContext ∨ t = InvVpidType.SingleContextNonGlobal) := by
  refine ⟨rfl, rfl, rfl, rfl, rfl, rfl, ?_, ?_⟩ <;> intro t <;> cases t <;> simp

/-- C4: the two execution backends give identical observable behaviour
(identical instruction traces and identical results) for each primitive
on the same inputs and the same flag outcome. -/
theorem backends_observationally_equal
    (flags : RFlags) (addr field value eptp vpid la : Nat)
    (it : InvEptType) (vt : InvVpidType) :
    vmxonRun Backend.inlineAsm addr flags = vmxonRun Backend.linkedAsm addr flags ∧
    vmxoffRun Backend.inlineAsm flags = vmxoffRun Backend.linkedAsm flags ∧
    vmreadRun Backend.inlineAsm field flags value
      = vmreadRun Backend.linkedAsm field flags value ∧
    vmwriteRun Backend.inlineAsm field value flags
      = vmwriteRun Backend.linkedAsm field value flags ∧
    vmptrldRun Backend.inlineAsm addr flags
      = vmptrldRun Backend.linkedAsm addr flags ∧
    vmclearRun Backend.inlineAsm addr flags
      = vmclearRun Backend.linkedAsm addr flags ∧
    inveptRun Backend.inlineAsm it eptp flags
      = inveptRun Backend.linkedAsm it eptp flags ∧
    invvpidRun Backend.inlineAsm vt vpid la flags
      = invvpidRun Backend.linkedAsm vt vpid la flags :=
  ⟨rfl, rfl, rfl, rfl, rfl, rfl, rfl, rfl⟩

/-- C5: the descriptor `invept` constructs always has `reserved = 0`
and the descriptor `invvpid` constructs always has
`reserved_0 = 0` and `reserved_1 = 0`, for all argument values. -/
theorem constructed_descriptors_reserved_zero
    (b : Backend) (flags : RFlags) (eptp vpid la : Nat)
    (it : InvEptType) (vt : InvVpidType) :
    (inveptRun b it eptp flags).1
      = [Instr.invept it.toU64 { eptp := eptp, reserved := 0 }] ∧
    (invvpidRun b vt vpid la flags).1
      = [Instr.invvpid vt.toU64
          { vpid := vpid, reserved_0 := 0, reserved_1 := 0, addr := la }] :=
  ⟨rfl, rfl⟩

/-- C6: the descriptor `InvEptDescriptor { eptp := 0x1000, reserved := 0 }`
re-reads its first 8 bytes as little-endian `0x1000`, and its bytes
8–15 are all zero. -/
theorem invept_descriptor_roundtrip_0x1000 :
    fromLEBytes ((InvEptDescriptor.mk 0x1000 0).bytes.take 8) = 0x1000 ∧
    (InvEptDescriptor.mk 0x1000 0).bytes.drop 8 = [0, 0, 0, 0, 0, 0, 0, 0] := by
  decide

/-- C7: `invvpid (IndividualAddress, vpid := 5, addr := 0x2000)` builds
a descriptor whose bytes 0–1 read back as 5, whose bytes 2–7 are zero,
and whose bytes 8–15 read back as 0x2000 (little-endian). -/
theorem invvpid_scenario_vpid5_addr0x2000 (b : Backend) (flags : RFlags) :
    (invvpidRun b InvVpidType.IndividualAddress 5 0x2000 flags).1
      = [Instr.invvpid 0 (InvVpidDescriptor.mk 5 0 0 0x2000)] ∧
    fromLEBytes ((InvVpidDescriptor.mk 5 0 0 0x2000).bytes.take 2) = 5 ∧
    ((InvVpidDescriptor.mk 5 0 0 0x2000).bytes.drop 2).take 6
      = [0, 0, 0, 0, 0, 0] ∧
    fromLEBytes ((InvVpidDescriptor.mk 5 0 0 0x2000).bytes.drop 8) = 0x2000 :=
  ⟨rfl, by decide, by decide, by decide⟩

/-- C8: whenever the backend reports failure, every primitive returns
the single failure value `none` (which carries no detail) directly,
having issued exactly the one underlying instruction — no recovery and
no retry. -/
theorem failure_opaque_and_not_retried
    (b : Backend) (flags : RFlags)
    (addr field value eptp vpid la : Nat)
    (it : InvEptType) (vt : InvVpidType)
    (h : b.err flags = true) :
    vmxonRun b addr flags = ([Instr.vmxon addr], none) ∧
    vmxoffRun b flags = ([Instr.vmxoff], none) ∧
    vmreadRun b field flags value = ([Instr.vmread field], none) ∧
    vmwriteRun b field value flags = ([Instr.vmwrite field value], none) ∧
    vmptrldRun b addr flags = ([Instr.vmptrld addr], none) ∧
    vmclearRun b addr flags = ([Instr.vmclear addr], none) ∧
    inveptRun b it eptp flags
      = ([Instr.invept it.toU64 { eptp := eptp, reserved := 0 }], none) ∧
    invvpidRun b vt vpid la flags
      = ([Instr.invvpid vt.toU64
          { vpid := vpid, reserved_0 := 0, reserved_1 := 0, addr := la }],
         none) := by
  simp [vmxonRun, vmxoffRun, vmreadRun, vmwriteRun, vmptrldRun, vmclearRun,
    inveptRun, invvpidRun, h]

/-- Witness for C8 with the inline backend and a ZF-set flag outcome. -/
theorem failure_opaque_and_not_retried_witness :
    vmxonRun Backend.inlineAsm 1 (RFlags.mk false true)
      = ([Instr.vmxon 1], none) ∧
    vmxoffRun Backend.inlineAsm (RFlags.mk false true)
      = ([Instr.vmxoff], none) ∧
    vmreadRun Backend.inlineAsm 2 (RFlags.mk false true) 3
      = ([Instr.vmread 2], none) ∧
    vmwriteRun Backend.inlineAsm 2 3 (RFlags.mk false true)
      = ([Instr.vmwrite 2 3], none) ∧
    vmptrldRun Backend.inlineAsm 1 (RFlags.mk false true)
      = ([Instr.vmptrld 1], none) ∧
    vmclearRun Backend.inlineAsm 1 (RFlags.mk false true)
      = ([Instr.vmclear 1], none) ∧
    inveptRun Backend.inlineAsm InvEptType.SingleContext 4 (RFlags.mk false true)
      = ([Instr.invept 1 { eptp := 4, reserved := 0 }], none) ∧
    invvpidRun Backend.inlineAsm InvVpidType.AllContext 5 6 (RFlags.mk false true)
      = ([Instr.invvpid 2
          { vpid := 5, reserved_0 := 0, reserved_1 := 0, addr := 6 }],
         none) :=
  failure_opaque_and_not_retried Backend.inlineAsm (RFlags.mk false true)
    1 2 3 4 5 6 InvEptType.SingleContext InvVpidType.AllContext (by decide)

/-- C9: for every `InvVpidType` variant, `invvpid` stores the
caller-supplied `vpid` and `addr` unchanged in the descriptor — neither
is masked, zeroed, or ignored based on the invalidation type. -/
theorem invvpid_stores_args_unchanged
    (b : Backend) (flags : RFlags) (vpid la : Nat) (vt : InvVpidType) :
    (invvpidRun b vt vpid la flags).1
      = [Instr.invvpid vt.toU64
          { vpid := vpid, reserved_0 := 0, reserved_1 := 0, addr := la }] ∧
    ({ vpid := vpid, reserved_0 := 0, reserved_1 := 0, addr := la } :
        InvVpidDescriptor).vpid = vpid ∧
    ({ vpid := vpid, reserved_0 := 0, reserved_1 := 0, addr := la } :
        InvVpidDescriptor).addr = la :=
  ⟨rfl, rfl, rfl⟩

/-- C10: every primitive is deterministic in its arguments, the
backend, the reported flag outcome and (for `vmread`) the value the
backend wrote: equal inputs give identical traces and results. -/
theorem primitives_deterministic
    (b b' : Backend) (flags flags' : RFlags)
    (addr addr' field field' value value' eptp eptp' vpid vpid' la la' : Nat)
    (it it' : InvEptType) (vt vt' : InvVpidType)
    (hb : b = b') (hflags : flags = flags') (haddr : addr = addr')
    (hfield : field = field') (hvalue : value = value')
    (heptp : eptp = eptp') (hvpid : vpid = vpid') (hla : la = la')
    (hit : it = it') (hvt : vt = vt') :
    vmxonRun b addr flags = vmxonRun b' addr' flags' ∧
    vmxoffRun b flags = vmxoffRun b' flags' ∧
    vmreadRun b field flags value = vmreadRun b' field' flags' value' ∧
    vmwriteRun b field value flags = vmwriteRun b' field' value' flags' ∧
    vmptrldRun b addr flags = vmptrldRun b' addr' flags' ∧
    vmclearRun b addr flags = vmclearRun b' addr' flags' ∧
    inveptRun b it eptp flags = inveptRun b' it' eptp' flags' ∧
    invvpidRun b vt vpid la flags = invvpidRun b' vt' vpid' la' flags' := by
  subst hb hflags haddr hfield hvalue heptp hvpid hla hit hvt
  exact ⟨rfl, rfl, rfl, rfl, rfl, rfl, rfl, rfl⟩

/-- Witness for C10 at concrete equal inputs. -/
theorem primitives_deterministic_witness :
    vmxonRun Backend.linkedAsm 1 (RFlags.mk false false)
      = vmxonRun Backend.linkedAsm 1 (RFlags.mk false false) ∧
    vmxoffRun Backend.linkedAsm (RFlags.mk false false)
      = vmxoffRun Backend.linkedAsm (RFlags.mk false false) ∧
    vmreadRun Backend.linkedAsm 2 (RFlags.mk false false) 3
      = vmreadRun Backend.linkedAsm 2 (RFlags.mk false false) 3 ∧
    vmwriteRun Backend.linkedAsm 2 3 (RFlags.mk false false)
      = vmwriteRun Backend.linkedAsm 2 3 (RFlags.mk false false) ∧
    vmptrldRun Backend.linkedAsm 1 (RFlags.mk false false)
      = vmptrldRun Backend.linkedAsm 1 (RFlags.mk false false) ∧
    vmclearRun Backend.linkedAsm 1 (RFlags.mk false false)
      = vmclearRun Backend.linkedAsm 1 (RFlags.mk false false) ∧
    inveptRun Backend.linkedAsm InvEptType.Global 4 (RFlags.mk false false)
      = inveptRun Backend.linkedAsm InvEptType.Global 4 (RFlags.mk false false) ∧
    invvpidRun Backend.linkedAsm InvVpidType.SingleContext 5 6 (RFlags.mk false false)
      = invvpidRun Backend.linkedAsm InvVpidType.SingleContext 5 6
          (RFlags.mk false false) :=
  primitives_deterministic Backend.linkedAsm Backend.linkedAsm
    (RFlags.mk false false) (RFlags.mk false false) 1 1 2 2 3 3 4 4 5 5 6 6
    InvEptType.Global InvEptType.Global
    InvVpidType.SingleContext InvVpidType.SingleContext
    rfl rfl rfl rfl rfl rfl rfl rfl rfl rfl

end VMX
